import Mathlib

/-!
Verification of the earthquake-risk client pipeline in
`frontend/src/Predict.tsx` and `frontend/src/api.ts`.

The embedding models JavaScript numbers as an inductive type over ℚ
(finite values are exact rationals; NaN and the two infinities are
explicit constructors), string-to-number coercion as the ECMAScript
ToNumber algorithm restricted to decimal literals and Infinity, and the
React submit handler as a pure function from form state to the outcome
it produces before any network call.
-/

namespace Xerf

/-- A JavaScript number: NaN, the two infinities, or a finite value
modelled as an exact rational. -/
inductive JSNum where
  | nan : JSNum
  | posInf : JSNum
  | negInf : JSNum
  | finite : ℚ → JSNum
deriving DecidableEq, Repr

/-- JavaScript Number.isFinite. -/
def JSNum.isFinite : JSNum → Bool
  | .finite _ => true
  | _ => false

/-- The JavaScript comparison x < y: false whenever either side is NaN,
otherwise the order with the infinities at the ends. -/
def JSNum.lt : JSNum → JSNum → Bool
  | .nan, _ => false
  | _, .nan => false
  | .negInf, .negInf => false
  | .negInf, _ => true
  | _, .negInf => false
  | .posInf, _ => false
  | .finite _, .posInf => true
  | .finite a, .finite b => decide (a < b)

/-- The JavaScript comparison x > y. -/
def JSNum.gt (a b : JSNum) : Bool := JSNum.lt b a

/-- The finite value carried by a JavaScript number; only read after an
isFinite check, mirroring how the source reads a field after validating
it. -/
def JSNum.toQ : JSNum → ℚ
  | .finite q => q
  | _ => 0

/-- The ASCII white-space characters the ECMAScript ToNumber coercion
strips from a string (the source relies on Number trimming blanks). -/
def isJsWhitespace (c : Char) : Bool :=
  c == ' ' || c == '\t' || c == '\n' || c == '\r' || c == '\x0b' || c == '\x0c'

/-- Strip leading and trailing white space, as ToNumber does. -/
def jsTrim (s : List Char) : List Char :=
  ((s.dropWhile isJsWhitespace).reverse.dropWhile isJsWhitespace).reverse

def isDigitChar (c : Char) : Bool := '0' ≤ c && c ≤ '9'

/-- The natural number denoted by a list of decimal digits. -/
def digitsToNat (l : List Char) : ℕ :=
  l.foldl (fun acc c => acc * 10 + (c.toNat - 48)) 0

/-- Parse the exponent part that follows an e or E in a decimal
literal: an optional sign and at least one digit. -/
def parseExponent : List Char → Option ℤ
  | [] => none
  | '+' :: cs =>
    if cs ≠ [] ∧ cs.all isDigitChar then some (digitsToNat cs) else none
  | '-' :: cs =>
    if cs ≠ [] ∧ cs.all isDigitChar then some (-(digitsToNat cs : ℤ)) else none
  | cs => if cs.all isDigitChar then some (digitsToNat cs) else none

/-- The exact rational sign * mant * 10 ^ t denoted by a parsed decimal
literal, written with integer arithmetic and one mkRat so it evaluates
by kernel reduction. -/
def decRat (sign : ℤ) (mant : ℕ) (t : ℤ) : ℚ :=
  if 0 ≤ t then mkRat (sign * ((mant : ℤ) * (10 : ℤ) ^ t.toNat)) 1
  else mkRat (sign * (mant : ℤ)) ((10 : ℕ) ^ (-t).toNat)

/-- Parse an unsigned decimal literal (digits, optional point, optional
exponent): the result is the mantissa digit value paired with the power
of ten scaling it (the exponent minus the number of fraction digits),
so the literal denotes mant * 10 ^ t exactly. -/
def parseUnsignedDec (l : List Char) : Option (ℕ × ℤ) :=
  let intDigits := l.takeWhile isDigitChar
  let rest1 := l.drop intDigits.length
  match rest1 with
  | '.' :: rest2 =>
    let fracDigits := rest2.takeWhile isDigitChar
    let rest3 := rest2.drop fracDigits.length
    if intDigits = [] ∧ fracDigits = [] then none
    else
      let mant := digitsToNat intDigits * 10 ^ fracDigits.length + digitsToNat fracDigits
      match rest3 with
      | [] => some (mant, -(fracDigits.length : ℤ))
      | 'e' :: rest4 =>
        (parseExponent rest4).map (fun e => (mant, e - fracDigits.length))
      | 'E' :: rest4 =>
        (parseExponent rest4).map (fun e => (mant, e - fracDigits.length))
      | _ => none
  | [] => if intDigits = [] then none else some (digitsToNat intDigits, 0)
  | 'e' :: rest2 =>
    if intDigits = [] then none
    else (parseExponent rest2).map (fun e => (digitsToNat intDigits, e))
  | 'E' :: rest2 =>
    if intDigits = [] then none
    else (parseExponent rest2).map (fun e => (digitsToNat intDigits, e))
  | _ => none

/-- Parse the body of a numeric string after the optional sign. -/
def parseSignedTail (rest : List Char) (sign : ℤ) : JSNum :=
  if rest = "Infinity".data then
    if sign = 1 then .posInf else .negInf
  else
    match parseUnsignedDec rest with
    | some (mant, t) => .finite (decRat sign mant t)
    | none => .nan

/-- the ECMAScript ToNumber coercion on strings, restricted to the
decimal and Infinity literal forms (the numeric form inputs produce):
trim white space, map the empty remainder to 0, otherwise parse an
optionally signed literal, and map anything else to NaN. This is the
semantics of the Number(value) calls in the source. -/
def jsToNumber (s : String) : JSNum :=
  let t := jsTrim s.data
  if t = [] then .finite 0
  else
    match t with
    | '+' :: rest => parseSignedTail rest 1
    | '-' :: rest => parseSignedTail rest (-1)
    | _ => parseSignedTail t 1

/-! The significance scaling constants and affine map of Predict.tsx. -/

def SIGNIFICANCE_USGS_MIN : ℚ := 0
def SIGNIFICANCE_USGS_MAX : ℚ := 1000
def SIGNIFICANCE_MODEL_MIN : ℚ := -128
def SIGNIFICANCE_MODEL_MAX : ℚ := 127

/-- convertSignificanceToModelScale of Predict.tsx: rescale a raw USGS
significance value onto the model scale. -/
def convertSignificanceToModelScale (value : ℚ) : ℚ :=
  let normalized :=
    (value - SIGNIFICANCE_USGS_MIN) /
      (SIGNIFICANCE_USGS_MAX - SIGNIFICANCE_USGS_MIN)
  normalized * (SIGNIFICANCE_MODEL_MAX - SIGNIFICANCE_MODEL_MIN) +
    SIGNIFICANCE_MODEL_MIN

/-! The data model of api.ts and Predict.tsx. -/

/-- PredictionPayload of api.ts: the JSON body posted to /predict. -/
structure PredictionPayload where
  magnitude : JSNum
  depth : JSNum
  cdi : JSNum
  mmi : JSNum
  sig : JSNum
deriving DecidableEq, Repr

/-- FormState of Predict.tsx: the five raw text inputs. -/
structure FormState where
  magnitude : String
  depth : String
  cdi : String
  mmi : String
  sig : String
deriving DecidableEq, Repr

/-- The five form fields. -/
inductive Field where
  | magnitude | depth | cdi | mmi | sig
deriving DecidableEq, Repr

/-- validateFieldValue of Predict.tsx: the per-field blur validator.
Returns the error message, or none when the value passes (the empty
string passes unconditionally). -/
def validateFieldValue (field : Field) (value : String) : Option String :=
  let numValue := jsToNumber value
  if value = "" then none
  else if !numValue.isFinite then some "Invalid value - must be a number"
  else
    match field with
    | .magnitude =>
      if numValue.lt (.finite 0) || numValue.gt (.finite 10) then
        some "Invalid value - must be between 0 and 10"
      else none
    | .depth =>
      if numValue.lt (.finite 0) || numValue.gt (.finite 700) then
        some "Invalid value - must be between 0 and 700"
      else none
    | .cdi =>
      if numValue.lt (.finite 0) || numValue.gt (.finite 12) then
        some "Invalid value - must be between 0 and 12"
      else none
    | .mmi =>
      if numValue.lt (.finite 0) || numValue.gt (.finite 12) then
        some "Invalid value - must be between 0 and 12"
      else none
    | .sig =>
      if numValue.lt (.finite SIGNIFICANCE_USGS_MIN) ||
          numValue.gt (.finite SIGNIFICANCE_USGS_MAX) then
        some "Invalid value - must be between 0 and 1000"
      else none

/-- The guard each field check of parsePayload uses:
not Number.isFinite x, or x below lo, or x above hi. -/
def invalidRange (x : JSNum) (lo hi : ℚ) : Bool :=
  !x.isFinite || x.lt (.finite lo) || x.gt (.finite hi)

/-- The validation and construction stage of parsePayload in
Predict.tsx, after the five Number coercions: check each field in
source order, throwing the message of the first failing check, then
build the payload with the significance value rescaled to the model
scale. -/
def parsePayloadNums (magnitude depth cdi mmi sig : JSNum) :
    Except String PredictionPayload :=
  if invalidRange magnitude 0 10 then
    .error "Magnitude must be a number between 0 and 10."
  else if invalidRange depth 0 700 then
    .error "Depth must be a number between 0 and 700 km."
  else if invalidRange cdi 0 12 then
    .error "CDI must be a number between 0 and 12."
  else if invalidRange mmi 0 12 then
    .error "MMI must be a number between 0 and 12."
  else if invalidRange sig SIGNIFICANCE_USGS_MIN SIGNIFICANCE_USGS_MAX then
    .error "Significance must be between 0 and 1000."
  else
    .ok { magnitude := magnitude, depth := depth, cdi := cdi, mmi := mmi,
          sig := .finite (convertSignificanceToModelScale sig.toQ) }

/-- parsePayload of Predict.tsx: coerce the five form strings with
Number, then validate and construct the payload. -/
def parsePayload (form : FormState) : Except String PredictionPayload :=
  parsePayloadNums (jsToNumber form.magnitude) (jsToNumber form.depth)
    (jsToNumber form.cdi) (jsToNumber form.mmi) (jsToNumber form.sig)

/-- What the submit handler does before any network activity:
validationFailure e means setError e ran and the handler returned with
predictEarthquakeRisk never invoked and the onApiRequest callback never
fired; request p means onApiRequest fired and predictEarthquakeRisk
was invoked with payload p. -/
inductive SubmitOutcome where
  | validationFailure (message : String)
  | request (payload : PredictionPayload)
deriving DecidableEq, Repr

/-- handleSubmit of Predict.tsx, up to the point the network request
leaves the client: parse the form, report a validation error and stop,
or hand the payload to predictEarthquakeRisk. -/
def handleSubmit (form : FormState) : SubmitOutcome :=
  match parsePayload form with
  | .error e => .validationFailure e
  | .ok p => .request p

/-! The probability meter of the PredictionResult component. -/

/-- JavaScript Math.round on an exact rational: round half toward
positive infinity. -/
def jsRound (q : ℚ) : ℤ := ⌊q + 1 / 2⌋

/-- probabilityPercent of PredictionResult:
Math.round(result.probability * 1000) / 10. -/
def probabilityPercent (probability : ℚ) : ℚ :=
  (jsRound (probability * 1000) : ℚ) / 10

/-- clampedPercent of PredictionResult:
Math.min(100, Math.max(0, probabilityPercent)). -/
def clampedPercent (probability : ℚ) : ℚ :=
  min 100 (max 0 (probabilityPercent probability))

end Xerf

deriving instance DecidableEq for Except

namespace Xerf

/-! Sanity checks of the ToNumber model on concrete strings. -/

example : jsToNumber " " = .finite 0 := by decide
example : jsToNumber "10.1" = .finite (mkRat 101 10) := by decide
example : jsToNumber "1000" = .finite 1000 := by decide
example : jsToNumber "-Infinity" = .negInf := by decide
example : jsToNumber "abc" = .nan := by decide
example : jsToNumber "1e+2" = .finite 100 := by decide
example : jsToNumber ".5" = .finite (mkRat 1 2) := by decide

/-! Helper lemmas about parsePayloadNums. -/

/-- When every range check passes, parsePayloadNums succeeds and builds
the payload with the significance value rescaled. -/
theorem parsePayloadNums_ok (m d c i s : JSNum)
    (h1 : invalidRange m 0 10 = false) (h2 : invalidRange d 0 700 = false)
    (h3 : invalidRange c 0 12 = false) (h4 : invalidRange i 0 12 = false)
    (h5 : invalidRange s SIGNIFICANCE_USGS_MIN SIGNIFICANCE_USGS_MAX = false) :
    parsePayloadNums m d c i s =
      .ok ⟨m, d, c, i, .finite (convertSignificanceToModelScale s.toQ)⟩ := by
  simp [parsePayloadNums, h1, h2, h3, h4, h5]

/-- When parsePayloadNums succeeds, every range check passed and the
payload is the four inputs together with the rescaled significance. -/
theorem parsePayloadNums_ok_inv (m d c i s : JSNum) (p : PredictionPayload)
    (h : parsePayloadNums m d c i s = .ok p) :
    invalidRange m 0 10 = false ∧ invalidRange d 0 700 = false ∧
    invalidRange c 0 12 = false ∧ invalidRange i 0 12 = false ∧
    invalidRange s SIGNIFICANCE_USGS_MIN SIGNIFICANCE_USGS_MAX = false ∧
    p = ⟨m, d, c, i, .finite (convertSignificanceToModelScale s.toQ)⟩ := by
  unfold parsePayloadNums at h
  split_ifs at h with h1 h2 h3 h4 h5
  all_goals simp_all

/-- Unfolding lemma: the affine map written with its constants inlined. -/
theorem convert_eq (s : ℚ) :
    convertSignificanceToModelScale s = (s - 0) / (1000 - 0) * (127 - (-128)) + (-128) := by
  unfold convertSignificanceToModelScale SIGNIFICANCE_USGS_MIN SIGNIFICANCE_USGS_MAX
    SIGNIFICANCE_MODEL_MIN SIGNIFICANCE_MODEL_MAX
  norm_num

/-- Evaluation of the full string pipeline on the example form whose
significance field reads 1000. -/
theorem parsePayload_example_1000 :
    parsePayload ⟨"5", "50", "5", "5", "1000"⟩ =
      .ok ⟨.finite 5, .finite 50, .finite 5, .finite 5, .finite 127⟩ := by
  have e5 : jsToNumber "5" = .finite 5 := by decide
  have e50 : jsToNumber "50" = .finite 50 := by decide
  have e1000 : jsToNumber "1000" = .finite 1000 := by decide
  show parsePayloadNums (jsToNumber "5") (jsToNumber "50") (jsToNumber "5")
      (jsToNumber "5") (jsToNumber "1000") = _
  rw [e5, e50, e1000,
    parsePayloadNums_ok _ _ _ _ _ (by decide) (by decide) (by decide) (by decide) (by decide)]
  simp only [Except.ok.injEq, PredictionPayload.mk.injEq, JSNum.finite.injEq,
    JSNum.toQ, and_true, true_and]
  rw [convert_eq]
  norm_num

/-! The claims. -/

/-- C2: the significance normalization is the affine map
s ↦ (s - 0) / (1000 - 0) * (127 - (-128)) + (-128); in particular it
sends 0 to -128, 1000 to 127, and 500 to -0.5. -/
theorem C2_normalization_affine :
    (∀ s : ℚ, convertSignificanceToModelScale s =
      (s - 0) / (1000 - 0) * (127 - (-128)) + (-128)) ∧
    convertSignificanceToModelScale 0 = -128 ∧
    convertSignificanceToModelScale 1000 = 127 ∧
    convertSignificanceToModelScale 500 = -0.5 := by
  refine ⟨convert_eq, ?_, ?_, ?_⟩
  all_goals rw [convert_eq]; norm_num

/-- C3 counterexample: the normalizer does not map significance 700 to
37.3 (and the arithmetic note in the spec, 700/1000*255-128, is not
56.5 either). -/
theorem C3_counterexample :
    convertSignificanceToModelScale 700 ≠ 37.3 ∧
      (700 / 1000 * 255 - 128 : ℚ) ≠ 56.5 := by
  rw [convert_eq]
  norm_num

/-- C3 amended: in the end-to-end scenario, the normalizer maps the
input significance value 700 to 50.5 (computed by 700/1000*255-128 =
50.5). -/
theorem C3_amended_seven_hundred :
    convertSignificanceToModelScale 700 = 50.5 ∧
      (700 / 1000 * 255 - 128 : ℚ) = 50.5 := by
  rw [convert_eq]
  norm_num

/-- C1 counterexample: on the valid form whose significance field reads
1000, the payload handed to predictEarthquakeRisk carries sig = 127,
the model-scale value, not the raw user-entered 1000. -/
theorem C1_counterexample :
    parsePayload ⟨"5", "50", "5", "5", "1000"⟩ =
      .ok ⟨.finite 5, .finite 50, .finite 5, .finite 5, .finite 127⟩ ∧
    JSNum.finite (127 : ℚ) ≠ .finite 1000 :=
  ⟨parsePayload_example_1000, by decide⟩

/-- C1 amended: for every valid form input, the sig field of the
PredictionPayload passed to predictEarthquakeRisk equals the
model-scale conversion of the user-entered significance value: the
client pre-normalizes significance before the request. -/
theorem C1_amended_sig_rescaled (form : FormState) (p : PredictionPayload)
    (h : parsePayload form = .ok p) :
    p.sig = .finite (convertSignificanceToModelScale (jsToNumber form.sig).toQ) := by
  unfold parsePayload at h
  obtain ⟨-, -, -, -, -, rfl⟩ := parsePayloadNums_ok_inv _ _ _ _ _ _ h
  rfl

/-- C1 amended, witnessed on the form whose significance field reads
1000. -/
theorem C1_amended_witness :
    (PredictionPayload.mk (.finite 5) (.finite 50) (.finite 5) (.finite 5)
        (.finite 127)).sig =
      .finite (convertSignificanceToModelScale (jsToNumber "1000").toQ) :=
  C1_amended_sig_rescaled ⟨"5", "50", "5", "5", "1000"⟩ _ parsePayload_example_1000

/-- C4: whenever some field is non-finite or outside its declared range,
payload construction fails, and the error message is the one naming an
offending field together with its valid range. -/
theorem C4_validation_rejects (m d c i s : JSNum)
    (h : invalidRange m 0 10 = true ∨ invalidRange d 0 700 = true ∨
      invalidRange c 0 12 = true ∨ invalidRange i 0 12 = true ∨
      invalidRange s 0 1000 = true) :
    ∃ e, parsePayloadNums m d c i s = .error e ∧
      ((invalidRange m 0 10 = true ∧ e = "Magnitude must be a number between 0 and 10.") ∨
       (invalidRange d 0 700 = true ∧ e = "Depth must be a number between 0 and 700 km.") ∨
       (invalidRange c 0 12 = true ∧ e = "CDI must be a number between 0 and 12.") ∨
       (invalidRange i 0 12 = true ∧ e = "MMI must be a number between 0 and 12.") ∨
       (invalidRange s 0 1000 = true ∧ e = "Significance must be between 0 and 1000.")) := by
  unfold parsePayloadNums
  split_ifs with h1 h2 h3 h4 h5
  · exact ⟨_, rfl, Or.inl ⟨h1, rfl⟩⟩
  · exact ⟨_, rfl, Or.inr (Or.inl ⟨h2, rfl⟩)⟩
  · exact ⟨_, rfl, Or.inr (Or.inr (Or.inl ⟨h3, rfl⟩))⟩
  · exact ⟨_, rfl, Or.inr (Or.inr (Or.inr (Or.inl ⟨h4, rfl⟩)))⟩
  · exact ⟨_, rfl, Or.inr (Or.inr (Or.inr (Or.inr ⟨h5, rfl⟩)))⟩
  · simp_all [SIGNIFICANCE_USGS_MIN, SIGNIFICANCE_USGS_MAX]

/-- C4 witnessed at the input of the spec scenario: magnitude 10.1 with
the other fields valid is rejected with the magnitude message. -/
theorem C4_witness :
    ∃ e, parsePayloadNums (.finite 10.1) (.finite 10) (.finite 1) (.finite 1)
        (.finite 100) = .error e ∧
      ((invalidRange (.finite 10.1) 0 10 = true ∧
        e = "Magnitude must be a number between 0 and 10.") ∨
       (invalidRange (.finite 10) 0 700 = true ∧
        e = "Depth must be a number between 0 and 700 km.") ∨
       (invalidRange (.finite 1) 0 12 = true ∧
        e = "CDI must be a number between 0 and 12.") ∨
       (invalidRange (.finite 1) 0 12 = true ∧
        e = "MMI must be a number between 0 and 12.") ∨
       (invalidRange (.finite 100) 0 1000 = true ∧
        e = "Significance must be between 0 and 1000.")) :=
  C4_validation_rejects _ _ _ _ _
    (Or.inl (by norm_num [invalidRange, JSNum.isFinite, JSNum.lt, JSNum.gt]))

/-- Modelled from the spec: the inverse affine map of the round-trip
property, x ↦ (x + 128) / 255 * 1000, taking a model-scale significance
back to the raw USGS scale. The source ships no inverse; the spec
supplies this formula. -/
def inverse_normalize (x : ℚ) : ℚ := (x + 128) / 255 * 1000

/-- C5: normalizing then applying the inverse map recovers every
significance value in [0,1000] within 1e-9 relative error (the model
arithmetic is exact, so the recovery is exact). -/
theorem C5_roundtrip (s : ℚ) (h0 : 0 ≤ s) (h1 : s ≤ 1000) :
    |inverse_normalize (convertSignificanceToModelScale s) - s| ≤
      1 / 1000000000 * |s| := by
  have h : inverse_normalize (convertSignificanceToModelScale s) = s := by
    rw [convert_eq]
    unfold inverse_normalize
    ring
  rw [h, sub_self, abs_zero]
  positivity

/-- C5 witnessed at s = 700. -/
theorem C5_witness :
    |inverse_normalize (convertSignificanceToModelScale 700) - 700| ≤
      1 / 1000000000 * |(700 : ℚ)| :=
  C5_roundtrip 700 (by norm_num) (by norm_num)

/-- C6: when the form fails validation, the submit handler reports the
validation error and stops: predictEarthquakeRisk is never invoked and
the onApiRequest callback never fires (no request outcome exists). -/
theorem C6_fail_fast (form : FormState) (e : String)
    (h : parsePayload form = .error e) :
    handleSubmit form = .validationFailure e ∧
      ∀ p, handleSubmit form ≠ .request p := by
  unfold handleSubmit
  rw [h]
  exact ⟨rfl, fun p hp => SubmitOutcome.noConfusion hp⟩

/-- C6 witnessed on a form whose magnitude field reads 11. -/
theorem C6_witness :
    handleSubmit ⟨"11", "50", "5", "5", "100"⟩ =
      .validationFailure "Magnitude must be a number between 0 and 10." :=
  (C6_fail_fast ⟨"11", "50", "5", "5", "100"⟩
    "Magnitude must be a number between 0 and 10." (by decide)).1

/-- C7: payload construction passes magnitude, depth, cdi and mmi
through unchanged; only the significance field is transformed. -/
theorem C7_passthrough (m d c i s : JSNum) (p : PredictionPayload)
    (h : parsePayloadNums m d c i s = .ok p) :
    p.magnitude = m ∧ p.depth = d ∧ p.cdi = c ∧ p.mmi = i := by
  obtain ⟨-, -, -, -, -, rfl⟩ := parsePayloadNums_ok_inv _ _ _ _ _ _ h
  exact ⟨rfl, rfl, rfl, rfl⟩

/-- C7 witnessed on the spec scenario input with significance 700. -/
theorem C7_witness :
    (PredictionPayload.mk (.finite 7) (.finite 50) (.finite 8) (.finite 9)
        (.finite (convertSignificanceToModelScale (JSNum.finite 700).toQ))).magnitude =
        .finite 7 ∧
    (PredictionPayload.mk (.finite 7) (.finite 50) (.finite 8) (.finite 9)
        (.finite (convertSignificanceToModelScale (JSNum.finite 700).toQ))).depth =
        .finite 50 ∧
    (PredictionPayload.mk (.finite 7) (.finite 50) (.finite 8) (.finite 9)
        (.finite (convertSignificanceToModelScale (JSNum.finite 700).toQ))).cdi =
        .finite 8 ∧
    (PredictionPayload.mk (.finite 7) (.finite 50) (.finite 8) (.finite 9)
        (.finite (convertSignificanceToModelScale (JSNum.finite 700).toQ))).mmi =
        .finite 9 :=
  C7_passthrough (.finite 7) (.finite 50) (.finite 8) (.finite 9) (.finite 700) _
    (parsePayloadNums_ok _ _ _ _ _ (by decide) (by decide) (by decide) (by decide)
      (by decide))

/-- C8: the client-side pipeline is deterministic: validation, payload
construction and the submit decision computed twice on identical form
input give identical results, with no hidden state between the runs. -/
theorem C8_deterministic (f g : FormState) (fld : Field) (h : f = g) :
    validateFieldValue fld f.sig = validateFieldValue fld g.sig ∧
    parsePayload f = parsePayload g ∧
    handleSubmit f = handleSubmit g := by
  subst h
  exact ⟨rfl, rfl, rfl⟩

/-- C8 witnessed on the spec scenario form. -/
theorem C8_witness :
    validateFieldValue Field.sig (FormState.mk "7" "50" "8" "9" "700").sig =
      validateFieldValue Field.sig (FormState.mk "7" "50" "8" "9" "700").sig ∧
    parsePayload ⟨"7", "50", "8", "9", "700"⟩ =
      parsePayload ⟨"7", "50", "8", "9", "700"⟩ ∧
    handleSubmit ⟨"7", "50", "8", "9", "700"⟩ =
      handleSubmit ⟨"7", "50", "8", "9", "700"⟩ :=
  C8_deterministic ⟨"7", "50", "8", "9", "700"⟩ ⟨"7", "50", "8", "9", "700"⟩
    Field.sig rfl

/-- C9: a white-space-only string in any form field is accepted rather
than rejected: the blur validator returns no error for it, Number
coerces it to 0, and a white-space-only significance field yields a
payload sig of -128 after scaling. -/
theorem C9_whitespace_accepted (s : String) (hne : s ≠ "")
    (hws : s.data.all isJsWhitespace = true) :
    (∀ fld : Field, validateFieldValue fld s = none) ∧
    jsToNumber s = .finite 0 ∧
    ∀ m d c i : String, ∀ p : PredictionPayload,
      parsePayload ⟨m, d, c, i, s⟩ = .ok p → p.sig = .finite (-128) := by
  have htrim : jsTrim s.data = [] := by
    have hall : ∀ x ∈ s.data, isJsWhitespace x = true := by
      simpa [List.all_eq_true] using hws
    unfold jsTrim
    rw [List.dropWhile_eq_nil_iff.2 hall]
    simp
  have hnum : jsToNumber s = .finite 0 := by
    unfold jsToNumber
    rw [htrim]
    simp
  have hsig : convertSignificanceToModelScale (JSNum.finite 0).toQ = -128 := by
    rw [show (JSNum.finite 0).toQ = 0 from rfl, convert_eq]
    norm_num
  refine ⟨?_, hnum, ?_⟩
  · intro fld
    simp only [validateFieldValue, hnum, if_neg hne]
    cases fld
    all_goals decide
  · intro m d c i p hp
    unfold parsePayload at hp
    rw [hnum] at hp
    obtain ⟨-, -, -, -, -, rfl⟩ := parsePayloadNums_ok_inv _ _ _ _ _ _ hp
    exact congrArg JSNum.finite hsig

/-- C9 witnessed on the single-space string. -/
theorem C9_witness :
    validateFieldValue Field.sig " " = none ∧ jsToNumber " " = .finite 0 :=
  ⟨(C9_whitespace_accepted " " (by decide) (by decide)).1 Field.sig,
   (C9_whitespace_accepted " " (by decide) (by decide)).2.1⟩

/-- C10: for every finite probability, including values outside [0,1],
the rendered meter percentage min(100, max(0, round(p*1000)/10)) stays
within [0,100]. -/
theorem C10_meter_clamped (probability : ℚ) :
    0 ≤ clampedPercent probability ∧ clampedPercent probability ≤ 100 := by
  unfold clampedPercent
  exact ⟨le_min (by norm_num) (le_max_left 0 _), min_le_left _ _⟩

end Xerf
